import Mathlib

/-!
Shallow embedding of the SimCard management backend (`src/malin.py`).

The program is a CRUD server over three SQLite tables; the claims concern
only the `shops` and `simcards` tables, so the state is modelled as the two
row lists in rowid (insertion) order.  Timestamps (`datetime.now()` ISO
strings) are modelled as natural-number clock ticks; SQLite `REAL`
latitude/longitude values are never computed with, so `Option Int` stands in
for the nullable column.  Every endpoint that can raise an `HTTPException`
returns `Except Err`; on an error the database is untouched (each handler
raises before any write, or the failed statement itself writes nothing), so
the error branch carries no state.
-/

/-- HTTP error raised by a handler: status code and detail string. -/
structure Err where
  status : Nat
  detail : String
deriving DecidableEq, Repr

/-- Row of the `shops` table. -/
structure Shop where
  id : String
  name : String
  ownerName : String
  ownerPhone : String
  address : String
  latitude : Option Int
  longitude : Option Int
  status : String
  region : String
  assignedSimCards : List String
  addedDate : Nat
deriving DecidableEq, Repr

/-- Row of the `simcards` table. -/
structure SimCard where
  id : String
  code : String
  status : String
  assignedTo : Option String
  assignedShopName : Option String
  addedDate : Nat
  saleDate : Option Nat
  lastChecked : Option Nat
deriving DecidableEq, Repr

/-- Database state: the two tables in rowid (insertion) order. -/
structure St where
  shops : List Shop
  simcards : List SimCard
deriving DecidableEq, Repr

/-- Empty database, as produced by `init_database` (the seeded `users` table
plays no part in any claim). -/
def initState : St := ⟨[], []⟩

/-- Body of `POST /shops` (`ShopCreate` pydantic model). -/
structure ShopCreate where
  name : String
  ownerName : String
  ownerPhone : String
  address : String
  latitude : Option Int
  longitude : Option Int
  region : String
deriving DecidableEq, Repr

/-- Body of `PUT /shops/(id)` (`ShopUpdate` pydantic model); `none` means the
field was omitted from the request. -/
structure ShopUpdate where
  name : Option String
  ownerName : Option String
  ownerPhone : Option String
  address : Option String
  latitude : Option Int
  longitude : Option Int
  status : Option String
  region : Option String
deriving DecidableEq, Repr

/-- Body of `PUT /simcards/(id)` (`SimCardUpdate` pydantic model). -/
structure SimCardUpdate where
  code : Option String
  status : Option String
  assignedTo : Option String
  assignedShopName : Option String
deriving DecidableEq, Repr

/-- The update request with every field omitted. -/
def emptyShopUpdate : ShopUpdate := ⟨none, none, none, none, none, none, none, none⟩

/-- The update request with every field omitted. -/
def emptySimCardUpdate : SimCardUpdate := ⟨none, none, none, none⟩

/-- Insert a shop keeping the list sorted by `addedDate` descending; models
the `ORDER BY addedDate DESC` of `GET /shops`. -/
def insertByDateDesc (s : Shop) : List Shop → List Shop
  | [] => [s]
  | t :: ts => if t.addedDate ≤ s.addedDate then s :: t :: ts else t :: insertByDateDesc s ts

/-- Handler `get_shops` (`GET /shops`): all shops, newest first (the stored
JSON text of `assignedSimCards` is already a list in this model). -/
def get_shops (st : St) : List Shop :=
  st.shops.foldr insertByDateDesc []

/-- Handler `create_shop` (`POST /shops`).  `newId` is the freshly generated
`uuid4`; a primary-key collision would make the uncaught `INSERT` fail with
an `IntegrityError` (HTTP 500) and write nothing. -/
def create_shop (st : St) (req : ShopCreate) (newId : String) (now : Nat) :
    Except Err (Shop × St) :=
  if st.shops.any fun s => s.id = newId then
    .error ⟨500, "UNIQUE constraint failed: shops.id"⟩
  else
    let shop : Shop :=
      ⟨newId, req.name, req.ownerName, req.ownerPhone, req.address,
       req.latitude, req.longitude, "active", req.region, [], now⟩
    .ok (shop, { st with shops := st.shops ++ [shop] })

/-- Merge of `update_shop`: the dynamically built `UPDATE` statement writes
exactly the request fields that are not `None`. -/
def applyShopUpdate (s : Shop) (u : ShopUpdate) : Shop :=
  { s with
    name := match u.name with | some v => v | none => s.name
    ownerName := match u.ownerName with | some v => v | none => s.ownerName
    ownerPhone := match u.ownerPhone with | some v => v | none => s.ownerPhone
    address := match u.address with | some v => v | none => s.address
    latitude := match u.latitude with | some v => some v | none => s.latitude
    longitude := match u.longitude with | some v => some v | none => s.longitude
    status := match u.status with | some v => v | none => s.status
    region := match u.region with | some v => v | none => s.region }

/-- Handler `update_shop` (`PUT /shops/(id)`): 404 when absent, otherwise
applies the sparse update and returns the re-fetched row (ids are never
changed by the update, so the re-fetch returns the updated first match). -/
def update_shop (st : St) (shopId : String) (u : ShopUpdate) :
    Except Err (Shop × St) :=
  match st.shops.find? fun s => s.id = shopId with
  | none => .error ⟨404, "Shop not found"⟩
  | some s =>
    let shops' := st.shops.map fun t => if t.id = shopId then applyShopUpdate t u else t
    .ok (applyShopUpdate s u, { st with shops := shops' })

/-- Reset applied by `delete_shop` to every simcard of the deleted shop. -/
def resetCard (c : SimCard) : SimCard :=
  { c with status := "available", assignedTo := none, assignedShopName := none }

/-- Handler `delete_shop` (`DELETE /shops/(id)`): 404 when absent, otherwise
deletes the row and resets every simcard whose `assignedTo` matches. -/
def delete_shop (st : St) (shopId : String) : Except Err St :=
  match st.shops.find? fun s => s.id = shopId with
  | none => .error ⟨404, "Shop not found"⟩
  | some _ =>
    .ok { st with
      shops := st.shops.filter fun s => ¬s.id = shopId
      simcards := st.simcards.map fun c =>
        if c.assignedTo = some shopId then resetCard c else c }

/-- Handler `create_simcard` (`POST /simcards`): the `INSERT` hits the
`code UNIQUE` constraint (or, for a colliding `uuid4`, the primary key) and
the handler maps the `IntegrityError` to HTTP 400. -/
def create_simcard (st : St) (code : String) (newId : String) (now : Nat) :
    Except Err (SimCard × St) :=
  if st.simcards.any fun c => c.code = code || c.id = newId then
    .error ⟨400, "SimCard code already exists"⟩
  else
    let card : SimCard := ⟨newId, code, "available", none, none, now, none, none⟩
    .ok (card, { st with simcards := st.simcards ++ [card] })

/-- Merge of `update_simcard`: writes exactly the request fields that are not
`None`; when the request sets `status` to "sold" the same `UPDATE` also
stamps `saleDate` with the current time. -/
def applySimUpdate (c : SimCard) (u : SimCardUpdate) (now : Nat) : SimCard :=
  { c with
    code := match u.code with | some v => v | none => c.code
    status := match u.status with | some v => v | none => c.status
    saleDate := if u.status = some "sold" then some now else c.saleDate
    assignedTo := match u.assignedTo with | some v => some v | none => c.assignedTo
    assignedShopName :=
      match u.assignedShopName with | some v => some v | none => c.assignedShopName }

/-- Handler `update_simcard` (`PUT /simcards/(id)`): 404 when absent,
otherwise applies the sparse update and returns the re-fetched row (the id
is never part of the update, so the re-fetch returns the updated row). -/
def update_simcard (st : St) (simcardId : String) (u : SimCardUpdate) (now : Nat) :
    Except Err (SimCard × St) :=
  match st.simcards.find? fun c => c.id = simcardId with
  | none => .error ⟨404, "SimCard not found"⟩
  | some c =>
    let cards' := st.simcards.map fun d => if d.id = simcardId then applySimUpdate d u now else d
    .ok (applySimUpdate c u now, { st with simcards := cards' })

/-- Handler `delete_simcard` (`DELETE /simcards/(id)`): 404 when absent,
otherwise deletes the row; no cascade. -/
def delete_simcard (st : St) (simcardId : String) : Except Err St :=
  match st.simcards.find? fun c => c.id = simcardId with
  | none => .error ⟨404, "SimCard not found"⟩
  | some _ => .ok { st with simcards := st.simcards.filter fun c => ¬c.id = simcardId }

/-- SQLite `LIMIT n`: a negative limit means no bound on the returned rows. -/
def sqlLimit (n : Int) (l : List SimCard) : List SimCard :=
  if n < 0 then l else l.take n.toNat

/-- Rows returned by `SELECT * FROM simcards WHERE status = 'available'`. -/
def availableCards (st : St) : List SimCard :=
  st.simcards.filter fun c => c.status = "available"

/-- Rows returned by the `SELECT ... WHERE status = 'available' LIMIT count`
of `assign_simcards_to_shop`. -/
def selectedCards (st : St) (count : Int) : List SimCard :=
  sqlLimit count (availableCards st)

/-- The `UPDATE` applied to each selected simcard by
`assign_simcards_to_shop`. -/
def assignCard (shopId shopName : String) (c : SimCard) : SimCard :=
  { c with status := "assigned", assignedTo := some shopId, assignedShopName := some shopName }

/-- Record of a newly assigned card in the response of
`assign_simcards_to_shop` (only these five fields are serialized). -/
structure AssignedCard where
  id : String
  code : String
  status : String
  assignedTo : String
  assignedShopName : String
deriving DecidableEq, Repr

/-- Handler `assign_simcards_to_shop` (`POST /simcards/assign`): 404 when the
shop is absent; 400 (before any write) when the `LIMIT count` query returned
fewer than `count` rows; otherwise updates each selected row by id. -/
def assign_simcards_to_shop (st : St) (shopId : String) (count : Int) :
    Except Err (List AssignedCard × St) :=
  match st.shops.find? fun s => s.id = shopId with
  | none => .error ⟨404, "Shop not found"⟩
  | some shop =>
    let selected := selectedCards st count
    if (selected.length : Int) < count then
      .error ⟨400, "Only " ++ toString selected.length ++ " simcards available"⟩
    else
      let ids := selected.map fun c => c.id
      let cards' := st.simcards.map fun c =>
        if ids.contains c.id then assignCard shopId shop.name c else c
      let response := selected.map fun c =>
        AssignedCard.mk c.id c.code "assigned" shopId shop.name
      .ok (response, { st with simcards := cards' })

/-- Handler `check_simcard_status` (`GET /simcards/(id)/check-status`):
404 when absent; stamps `lastChecked` in the table but returns the row
dictionary fetched before the `UPDATE`. -/
def check_simcard_status (st : St) (simcardId : String) (now : Nat) :
    Except Err (SimCard × St) :=
  match st.simcards.find? fun c => c.id = simcardId with
  | none => .error ⟨404, "SimCard not found"⟩
  | some c =>
    let cards' := st.simcards.map fun d =>
      if d.id = simcardId then { d with lastChecked := some now } else d
    .ok (c, { st with simcards := cards' })

/-- One entry of the `auto_check_simcards` response. -/
structure AutoCheckResult where
  simCardId : String
  status : String
  isSold : Bool
  saleDate : Option Nat
  lastChecked : Nat
deriving DecidableEq, Repr

/-- Handler `auto_check_simcards` (`POST /simcards/auto-check`): one shared
timestamp; unknown ids are silently skipped; each found id gets its
`lastChecked` stamped and a result record built from the pre-update row. -/
def auto_check_simcards (st : St) (ids : List String) (now : Nat) :
    List AutoCheckResult × St :=
  let results := ids.filterMap fun i =>
    (st.simcards.find? fun c => c.id = i).map fun c =>
      AutoCheckResult.mk i c.status (c.status == "sold") c.saleDate now
  let cards' := st.simcards.map fun c =>
    if ids.contains c.id then { c with lastChecked := some now } else c
  (results, { st with simcards := cards' })

/-- Aggregate response of `get_statistics` (`GET /statistics`).  The
`salesByDate` map is calendar arithmetic over ISO dates and is outside the
tick-clock model; no claim concerns it. -/
structure Statistics where
  totalShops : Nat
  activeShops : Nat
  totalSimCards : Nat
  availableSimCards : Nat
  assignedSimCards : Nat
  soldSimCards : Nat
  regionStats : List (String × Nat)
deriving DecidableEq, Repr

/-- The `GROUP BY region` counts of `get_statistics`. -/
def regionCounts (shops : List Shop) : List (String × Nat) :=
  ((shops.map fun s => s.region).eraseDups).map fun r =>
    (r, shops.countP fun s => s.region = r)

/-- Handler `get_statistics`: the six `COUNT(*)` queries and the per-region
grouping. -/
def get_statistics (st : St) : Statistics :=
  ⟨st.shops.length,
   st.shops.countP fun s => s.status = "active",
   st.simcards.length,
   st.simcards.countP fun c => c.status = "available",
   st.simcards.countP fun c => c.status = "assigned",
   st.simcards.countP fun c => c.status = "sold",
   regionCounts st.shops⟩

/-- One value of the `get_shop_sales_stats` mapping; the field the response
labels "available" counts cards with status assigned (as in the source's
`CASE WHEN sc.status = 'assigned'`). -/
structure ShopSalesStat where
  sold : Nat
  available : Nat
  total : Nat
deriving DecidableEq, Repr

/-- Handler `get_shop_sales_stats` (`GET /statistics/shops`): the
`LEFT JOIN ... GROUP BY s.id, s.name` gives one row per shop (ids are the
primary key); a shop with no matching simcards keeps `COUNT(sc.id) = 0` and
`NULL` statuses match no `CASE` arm, hence all-zero counts. -/
def get_shop_sales_stats (st : St) : List (String × ShopSalesStat) :=
  st.shops.map fun s =>
    let cards := st.simcards.filter fun c => c.assignedTo = some s.id
    (s.id,
     ⟨cards.countP fun c => c.status = "sold",
      cards.countP fun c => c.status = "assigned",
      cards.length⟩)

/-- One API call with the nondeterministic inputs (fresh uuid, clock reading)
made explicit as parameters. -/
inductive Op where
  | opCreateShop (req : ShopCreate) (newId : String) (now : Nat)
  | opUpdateShop (id : String) (u : ShopUpdate)
  | opDeleteShop (id : String)
  | opCreateSim (code : String) (newId : String) (now : Nat)
  | opUpdateSim (id : String) (u : SimCardUpdate) (now : Nat)
  | opDeleteSim (id : String)
  | opAssign (shopId : String) (count : Int)
  | opCheck (id : String) (now : Nat)
  | opAutoCheck (ids : List String) (now : Nat)
deriving DecidableEq, Repr

/-- Whether the call is a `PUT /simcards/(id)` partial update. -/
def Op.isUpdateSim : Op → Bool
  | .opUpdateSim _ _ _ => true
  | _ => false

/-- State transition of one call: a handler that fails leaves the database
untouched (every handler raises before writing, or the failed statement
itself wrote nothing and the uncommitted transaction rolls back). -/
def applyOp (st : St) : Op → St
  | .opCreateShop req newId now =>
    match create_shop st req newId now with | .ok (_, st') => st' | .error _ => st
  | .opUpdateShop i u =>
    match update_shop st i u with | .ok (_, st') => st' | .error _ => st
  | .opDeleteShop i =>
    match delete_shop st i with | .ok st' => st' | .error _ => st
  | .opCreateSim code newId now =>
    match create_simcard st code newId now with | .ok (_, st') => st' | .error _ => st
  | .opUpdateSim i u now =>
    match update_simcard st i u now with | .ok (_, st') => st' | .error _ => st
  | .opDeleteSim i =>
    match delete_simcard st i with | .ok st' => st' | .error _ => st
  | .opAssign shopId count =>
    match assign_simcards_to_shop st shopId count with | .ok (_, st') => st' | .error _ => st
  | .opCheck i now =>
    match check_simcard_status st i now with | .ok (_, st') => st' | .error _ => st
  | .opAutoCheck ids now => (auto_check_simcards st ids now).2

/-- Database state after a sequence of calls against a fresh database. -/
def runOps (ops : List Op) : St :=
  ops.foldl applyOp initState

/-- Status/assignment coherence of one simcard row: available rows are
unassigned, assigned or sold rows carry a shop id. -/
def cardOk (c : SimCard) : Bool :=
  (!(c.status == "available") || c.assignedTo == none) &&
  (!(c.status == "assigned" || c.status == "sold") || !(c.assignedTo == none))

/-- The spec's SimCard invariant over the whole table. -/
def simInvariant (st : St) : Bool :=
  st.simcards.all cardOk

/-! Sample rows used by witnesses and counterexamples. -/

/-- Concrete shop row used in witnesses. -/
def shopA : Shop :=
  ⟨"s1", "Shop One", "Owner One", "998901234567", "Addr 1", none, none, "active", "North", [], 0⟩

/-- Concrete available simcard row used in witnesses. -/
def cardA : SimCard :=
  ⟨"c1", "CODE1", "available", none, none, 0, none, none⟩

/-- Sparse update with an empty payload is the identity merge. -/
theorem applyShopUpdate_empty (s : Shop) : applyShopUpdate s emptyShopUpdate = s := rfl

/-- Sparse simcard update with an empty payload is the identity merge. -/
theorem applySimUpdate_empty (c : SimCard) (now : Nat) :
    applySimUpdate c emptySimCardUpdate now = c := rfl

/-- C2: `updateShop` and `updateSimCard` are sparse updates: every request
field that is omitted keeps its prior value in the merged row, and an update
with an empty payload returns the stored row and leaves the state
unchanged. -/
theorem C2_partial_update_frame :
    (∀ (s : Shop) (u : ShopUpdate),
      (u.name = none → (applyShopUpdate s u).name = s.name) ∧
      (u.ownerName = none → (applyShopUpdate s u).ownerName = s.ownerName) ∧
      (u.ownerPhone = none → (applyShopUpdate s u).ownerPhone = s.ownerPhone) ∧
      (u.address = none → (applyShopUpdate s u).address = s.address) ∧
      (u.latitude = none → (applyShopUpdate s u).latitude = s.latitude) ∧
      (u.longitude = none → (applyShopUpdate s u).longitude = s.longitude) ∧
      (u.status = none → (applyShopUpdate s u).status = s.status) ∧
      (u.region = none → (applyShopUpdate s u).region = s.region)) ∧
    (∀ (c : SimCard) (u : SimCardUpdate) (now : Nat),
      (u.code = none → (applySimUpdate c u now).code = c.code) ∧
      (u.status = none → (applySimUpdate c u now).status = c.status ∧
        (applySimUpdate c u now).saleDate = c.saleDate) ∧
      (u.assignedTo = none → (applySimUpdate c u now).assignedTo = c.assignedTo) ∧
      (u.assignedShopName = none →
        (applySimUpdate c u now).assignedShopName = c.assignedShopName)) ∧
    (∀ (st : St) (i : String) (s : Shop),
      st.shops.find? (fun t => t.id = i) = some s →
      update_shop st i emptyShopUpdate = .ok (s, st)) ∧
    (∀ (st : St) (i : String) (c : SimCard) (now : Nat),
      st.simcards.find? (fun d => d.id = i) = some c →
      update_simcard st i emptySimCardUpdate now = .ok (c, st)) := by
  refine ⟨fun s u => ?_, fun c u now => ?_,
    fun st i s hfind => ?_, fun st i c now hfind => ?_⟩
  · refine ⟨?_, ?_, ?_, ?_, ?_, ?_, ?_, ?_⟩ <;> intro h <;> simp [applyShopUpdate, h]
  · refine ⟨fun h => ?_, fun h => ⟨?_, ?_⟩, fun h => ?_, fun h => ?_⟩ <;>
      simp [applySimUpdate, h]
  · unfold update_shop
    rw [hfind]
    simp [applyShopUpdate_empty]
  · unfold update_simcard
    rw [hfind]
    simp [applySimUpdate_empty]

/-- Witness for C2 at a concrete shop and simcard. -/
theorem C2_partial_update_frame_witness :
    update_shop ⟨[shopA], [cardA]⟩ "s1" emptyShopUpdate = .ok (shopA, ⟨[shopA], [cardA]⟩) ∧
    update_simcard ⟨[shopA], [cardA]⟩ "c1" emptySimCardUpdate 7 =
      .ok (cardA, ⟨[shopA], [cardA]⟩) :=
  ⟨C2_partial_update_frame.2.2.1 ⟨[shopA], [cardA]⟩ "s1" shopA (by simp [shopA]),
   C2_partial_update_frame.2.2.2 ⟨[shopA], [cardA]⟩ "c1" cardA 7 (by simp [cardA])⟩

/-- Concrete assigned simcard with a prior saleDate, used in witnesses. -/
def cardSold : SimCard :=
  ⟨"c2", "CODE2", "assigned", some "s1", some "Shop One", 3, some 4, none⟩

/-- C4: an update whose status field is "sold" stamps saleDate with the
current time in the returned row and in every stored row with the updated
id, unconditionally overwriting any prior saleDate; the stamped value is
non-null and at least the card's addedDate (clock monotonicity enters as
the hypothesis that the call happens no earlier than the card was added). -/
theorem C4_sold_stamps_saleDate :
    ∀ (st : St) (i : String) (u : SimCardUpdate) (now : Nat) (c : SimCard),
      st.simcards.find? (fun d => d.id = i) = some c →
      u.status = some "sold" →
      c.addedDate ≤ now →
      ∃ ret st', update_simcard st i u now = .ok (ret, st') ∧
        ret.saleDate = some now ∧
        ret.addedDate = c.addedDate ∧
        (∃ d, ret.saleDate = some d ∧ ret.addedDate ≤ d) ∧
        ∀ d ∈ st'.simcards, d.id = i → d.saleDate = some now := by
  intro st i u now c hfind hstatus hadd
  unfold update_simcard
  rw [hfind]
  refine ⟨applySimUpdate c u now, _, rfl, ?_, rfl, ⟨now, ?_, ?_⟩, ?_⟩
  · simp [applySimUpdate, hstatus]
  · simp [applySimUpdate, hstatus]
  · exact hadd
  · intro d hd hid
    simp only [List.mem_map] at hd
    obtain ⟨e, _, rfl⟩ := hd
    by_cases heq : e.id = i
    · simp [heq, applySimUpdate, hstatus]
    · rw [if_neg heq] at hid
      exact absurd hid heq

/-- Witness for C4: a card with a prior saleDate of 4 gets it overwritten
with the call time 9. -/
theorem C4_sold_stamps_saleDate_witness :
    ∃ ret st',
      update_simcard ⟨[], [cardSold]⟩ "c2" ⟨none, some "sold", none, none⟩ 9 =
        .ok (ret, st') ∧
      ret.saleDate = some 9 ∧
      ret.addedDate = cardSold.addedDate ∧
      (∃ d, ret.saleDate = some d ∧ ret.addedDate ≤ d) ∧
      ∀ d ∈ st'.simcards, d.id = "c2" → d.saleDate = some 9 :=
  C4_sold_stamps_saleDate ⟨[], [cardSold]⟩ "c2" ⟨none, some "sold", none, none⟩ 9 cardSold
    (by decide) rfl (by decide)

/-- C8: createSimCard with an already used code fails with the Conflict
error (HTTP 400, duplicate code) and leaves the database untouched; with a
fresh code (and a fresh uuid) it succeeds and the created card is available
with all assignment and date fields null, appended to the table. -/
theorem C8_create_simcard_conflict :
    ∀ (st : St) (code newId : String) (now : Nat),
      ((∃ c ∈ st.simcards, c.code = code) →
        create_simcard st code newId now = .error ⟨400, "SimCard code already exists"⟩ ∧
        applyOp st (.opCreateSim code newId now) = st) ∧
      ((∀ c ∈ st.simcards, c.code ≠ code ∧ c.id ≠ newId) →
        ∃ card st', create_simcard st code newId now = .ok (card, st') ∧
          card.id = newId ∧ card.code = code ∧ card.status = "available" ∧
          card.assignedTo = none ∧ card.assignedShopName = none ∧
          card.saleDate = none ∧ card.lastChecked = none ∧
          st'.shops = st.shops ∧ st'.simcards = st.simcards ++ [card]) := by
  intro st code newId now
  constructor
  · rintro ⟨c, hc, hcode⟩
    have hany : (st.simcards.any fun c => c.code = code || c.id = newId) = true := by
      rw [List.any_eq_true]
      exact ⟨c, hc, by simp [hcode]⟩
    exact ⟨by simp [create_simcard, hany], by simp [applyOp, create_simcard, hany]⟩
  · intro h
    have hany : (st.simcards.any fun c => c.code = code || c.id = newId) = false := by
      rw [Bool.eq_false_iff]
      intro hcontra
      rw [List.any_eq_true] at hcontra
      obtain ⟨c, hc, hor⟩ := hcontra
      rcases Bool.or_eq_true_iff.1 hor with h1 | h1
      · exact (h c hc).1 (by simpa using h1)
      · exact (h c hc).2 (by simpa using h1)
    exact ⟨⟨newId, code, "available", none, none, now, none, none⟩,
      { st with simcards :=
          st.simcards ++ [⟨newId, code, "available", none, none, now, none, none⟩] },
      by simp [create_simcard, hany], rfl, rfl, rfl, rfl, rfl, rfl, rfl, rfl, rfl⟩

/-- Witness for C8: duplicate code "CODE1" is rejected, fresh code "CODE9"
is created available with null fields. -/
theorem C8_create_simcard_conflict_witness :
    (create_simcard ⟨[], [cardA]⟩ "CODE1" "c9" 4 =
        .error ⟨400, "SimCard code already exists"⟩ ∧
      applyOp ⟨[], [cardA]⟩ (.opCreateSim "CODE1" "c9" 4) = ⟨[], [cardA]⟩) ∧
    (∃ card st', create_simcard ⟨[], [cardA]⟩ "CODE9" "c9" 4 = .ok (card, st') ∧
      card.id = "c9" ∧ card.code = "CODE9" ∧ card.status = "available" ∧
      card.assignedTo = none ∧ card.assignedShopName = none ∧
      card.saleDate = none ∧ card.lastChecked = none ∧
      st'.shops = (St.mk [] [cardA]).shops ∧
      st'.simcards = (St.mk [] [cardA]).simcards ++ [card]) :=
  ⟨(C8_create_simcard_conflict ⟨[], [cardA]⟩ "CODE1" "c9" 4).1 ⟨cardA, by simp, by decide⟩,
   (C8_create_simcard_conflict ⟨[], [cardA]⟩ "CODE9" "c9" 4).2 (by decide)⟩

/-- C3: deleting an existing shop removes its row and resets every simcard
assigned to it to available/unassigned, leaving all other shops and
simcards unchanged; deleting an absent id fails with NotFound and changes
nothing. -/
theorem C3_delete_shop_cascade :
    ∀ (st : St) (shopId : String),
      ((∃ s ∈ st.shops, s.id = shopId) →
        ∃ st', delete_shop st shopId = .ok st' ∧
          (∀ s ∈ st'.shops, s.id ≠ shopId) ∧
          (∀ s ∈ st.shops, s.id ≠ shopId → s ∈ st'.shops) ∧
          (∀ s ∈ st'.shops, s ∈ st.shops) ∧
          st'.simcards.length = st.simcards.length ∧
          (∀ j (h : j < st.simcards.length) (h' : j < st'.simcards.length),
            ((st.simcards.get ⟨j, h⟩).assignedTo = some shopId →
              (st'.simcards.get ⟨j, h'⟩).status = "available" ∧
              (st'.simcards.get ⟨j, h'⟩).assignedTo = none ∧
              (st'.simcards.get ⟨j, h'⟩).assignedShopName = none) ∧
            ((st.simcards.get ⟨j, h⟩).assignedTo ≠ some shopId →
              st'.simcards.get ⟨j, h'⟩ = st.simcards.get ⟨j, h⟩))) ∧
      (st.shops.find? (fun s => s.id = shopId) = none →
        delete_shop st shopId = .error ⟨404, "Shop not found"⟩ ∧
        applyOp st (.opDeleteShop shopId) = st) := by
  intro st shopId
  constructor
  · rintro ⟨s, hs, hid⟩
    have hfind : (st.shops.find? fun t => t.id = shopId).isSome := by
      rw [List.find?_isSome]
      exact ⟨s, hs, by simp [hid]⟩
    obtain ⟨s₀, hs₀⟩ := Option.isSome_iff_exists.1 hfind
    refine ⟨{ st with
        shops := st.shops.filter fun s => ¬s.id = shopId
        simcards := st.simcards.map fun c =>
          if c.assignedTo = some shopId then resetCard c else c }, ?_, ?_, ?_, ?_, ?_, ?_⟩
    · unfold delete_shop
      rw [hs₀]
    · intro t ht
      have := List.of_mem_filter ht
      simpa using this
    · intro t ht hne
      exact List.mem_filter.2 ⟨ht, by simpa using hne⟩
    · intro t ht
      exact List.mem_of_mem_filter ht
    · simp
    · intro j h h'
      constructor
      · intro hmatch
        rw [List.get_eq_getElem] at hmatch
        simp [List.get_eq_getElem, List.getElem_map, hmatch, resetCard]
      · intro hmatch
        rw [List.get_eq_getElem] at hmatch
        simp [List.get_eq_getElem, List.getElem_map, hmatch]
  · intro hfind
    constructor
    · unfold delete_shop
      rw [hfind]
    · simp [applyOp, delete_shop, hfind]

/-- Witness for C3: deleting shop "s1" resets card "c2" (assigned to it)
and rejects the absent id "zz". -/
theorem C3_delete_shop_cascade_witness :
    (∃ st', delete_shop ⟨[shopA], [cardSold]⟩ "s1" = .ok st' ∧
      (∀ s ∈ st'.shops, s.id ≠ "s1") ∧
      (∀ s ∈ (St.mk [shopA] [cardSold]).shops, s.id ≠ "s1" → s ∈ st'.shops) ∧
      (∀ s ∈ st'.shops, s ∈ (St.mk [shopA] [cardSold]).shops) ∧
      st'.simcards.length = (St.mk [shopA] [cardSold]).simcards.length ∧
      (∀ j (h : j < (St.mk [shopA] [cardSold]).simcards.length)
          (h' : j < st'.simcards.length),
        (((St.mk [shopA] [cardSold]).simcards.get ⟨j, h⟩).assignedTo = some "s1" →
          (st'.simcards.get ⟨j, h'⟩).status = "available" ∧
          (st'.simcards.get ⟨j, h'⟩).assignedTo = none ∧
          (st'.simcards.get ⟨j, h'⟩).assignedShopName = none) ∧
        (((St.mk [shopA] [cardSold]).simcards.get ⟨j, h⟩).assignedTo ≠ some "s1" →
          st'.simcards.get ⟨j, h'⟩ = (St.mk [shopA] [cardSold]).simcards.get ⟨j, h⟩))) ∧
    (delete_shop ⟨[shopA], [cardSold]⟩ "zz" = .error ⟨404, "Shop not found"⟩ ∧
      applyOp ⟨[shopA], [cardSold]⟩ (.opDeleteShop "zz") = ⟨[shopA], [cardSold]⟩) :=
  ⟨(C3_delete_shop_cascade ⟨[shopA], [cardSold]⟩ "s1").1 ⟨shopA, by simp, rfl⟩,
   (C3_delete_shop_cascade ⟨[shopA], [cardSold]⟩ "zz").2 (by decide)⟩

/-- Re-fetching by id after an update by id returns the updated first match,
for row updates that never change the id. -/
theorem find?_map_update (l : List SimCard) (i : String) (f : SimCard → SimCard)
    (hf : ∀ c, (f c).id = c.id) (c : SimCard)
    (h : l.find? (fun d => d.id = i) = some c) :
    (l.map fun d => if d.id = i then f d else d).find? (fun d => d.id = i) = some (f c) := by
  induction l with
  | nil => simp at h
  | cons a l ih =>
    by_cases ha : a.id = i
    · rw [List.find?_cons_of_pos _ (by simp [ha])] at h
      obtain rfl := Option.some.inj h
      rw [List.map_cons, if_pos ha, List.find?_cons_of_pos _ (by simp [hf, ha])]
    · rw [List.find?_cons_of_neg _ (by simp [ha])] at h
      rw [List.map_cons, if_neg ha, List.find?_cons_of_neg _ (by simp [ha])]
      exact ih h

/-- C7 counterexample: checking card "c1" (never checked before) at time 5
stamps the stored row with lastChecked 5 but the returned record still has
the prior lastChecked, which is null, not the freshly stamped value. -/
theorem C7_counterexample_stale_row :
    check_simcard_status ⟨[], [cardA]⟩ "c1" 5 =
      .ok (cardA, ⟨[], [{ cardA with lastChecked := some 5 }]⟩) ∧
    cardA.lastChecked = none ∧ ¬cardA.lastChecked = some 5 :=
  ⟨rfl, rfl, by decide⟩

/-- C7 (amended): checkStatus on an existing id stamps the stored row's
lastChecked with the current time and leaves every other row unchanged, but
the returned record is the row as fetched before the stamp, so it carries
the prior lastChecked value rather than the fresh one; an absent id fails
with NotFound. -/
theorem C7_check_stamps_store_returns_prior :
    ∀ (st : St) (i : String) (now : Nat),
      (∀ c, st.simcards.find? (fun d => d.id = i) = some c →
        ∃ st', check_simcard_status st i now = .ok (c, st') ∧
          st'.simcards.find? (fun d => d.id = i) =
            some { c with lastChecked := some now } ∧
          st'.shops = st.shops ∧
          st'.simcards.length = st.simcards.length ∧
          (∀ j (h : j < st.simcards.length) (h' : j < st'.simcards.length),
            (st.simcards.get ⟨j, h⟩).id ≠ i →
              st'.simcards.get ⟨j, h'⟩ = st.simcards.get ⟨j, h⟩)) ∧
      (st.simcards.find? (fun d => d.id = i) = none →
        check_simcard_status st i now = .error ⟨404, "SimCard not found"⟩) := by
  intro st i now
  constructor
  · intro c hfind
    refine ⟨{ st with simcards := st.simcards.map fun d =>
        if d.id = i then { d with lastChecked := some now } else d }, ?_, ?_, rfl, by simp, ?_⟩
    · unfold check_simcard_status
      rw [hfind]
    · exact find?_map_update st.simcards i
        (fun d => { d with lastChecked := some now }) (fun d => rfl) c hfind
    · intro j h h' hne
      rw [List.get_eq_getElem] at hne
      simp [List.get_eq_getElem, List.getElem_map, hne]
  · intro hfind
    unfold check_simcard_status
    rw [hfind]

/-- Witness for C7 at a concrete card. -/
theorem C7_check_stamps_store_returns_prior_witness :
    ∃ st', check_simcard_status ⟨[], [cardA]⟩ "c1" 5 = .ok (cardA, st') ∧
      st'.simcards.find? (fun d => d.id = "c1") =
        some { cardA with lastChecked := some 5 } ∧
      st'.shops = (St.mk [] [cardA]).shops ∧
      st'.simcards.length = (St.mk [] [cardA]).simcards.length ∧
      (∀ j (h : j < (St.mk [] [cardA]).simcards.length) (h' : j < st'.simcards.length),
        ((St.mk [] [cardA]).simcards.get ⟨j, h⟩).id ≠ "c1" →
          st'.simcards.get ⟨j, h'⟩ = (St.mk [] [cardA]).simcards.get ⟨j, h⟩) :=
  (C7_check_stamps_store_returns_prior ⟨[], [cardA]⟩ "c1" 5).1 cardA (by decide)

/-- A reset simcard satisfies the status/assignment invariant. -/
theorem cardOk_resetCard (c : SimCard) : cardOk (resetCard c) = true := rfl

/-- A freshly assigned simcard satisfies the status/assignment invariant. -/
theorem cardOk_assignCard (shopId shopName : String) (c : SimCard) :
    cardOk (assignCard shopId shopName c) = true := rfl

/-- Stamping lastChecked does not affect the status/assignment invariant. -/
theorem cardOk_setLastChecked (c : SimCard) (now : Nat) :
    cardOk { c with lastChecked := some now } = cardOk c := rfl

/-- A freshly created simcard satisfies the status/assignment invariant. -/
theorem cardOk_newCard (newId code : String) (now : Nat) :
    cardOk ⟨newId, code, "available", none, none, now, none, none⟩ = true := rfl

/-- Mapping a conditional row update that preserves the invariant keeps the
whole table's invariant. -/
theorem all_cardOk_map_ite (p : SimCard → Prop) [DecidablePred p] (f : SimCard → SimCard)
    (hf : ∀ c, cardOk c = true → cardOk (f c) = true) (l : List SimCard)
    (h : l.all cardOk = true) :
    (l.map fun c => if p c then f c else c).all cardOk = true := by
  rw [List.all_eq_true] at h ⊢
  intro x hx
  rw [List.mem_map] at hx
  obtain ⟨c, hc, rfl⟩ := hx
  by_cases hp : p c
  · rw [if_pos hp]
    exact hf c (h c hc)
  · rw [if_neg hp]
    exact h c hc

/-- Every call other than the simcard partial update preserves the
status/assignment invariant. -/
theorem simInvariant_applyOp (st : St) (op : Op) (hop : op.isUpdateSim = false)
    (h : simInvariant st = true) : simInvariant (applyOp st op) = true := by
  cases op with
  | opCreateShop req newId now =>
    by_cases hc : (st.shops.any fun s => s.id = newId) = true
    · simpa [applyOp, create_shop, hc] using h
    · simpa [applyOp, create_shop, hc, simInvariant] using h
  | opUpdateShop i u =>
    cases hfind : st.shops.find? fun s => s.id = i with
    | none => simpa [applyOp, update_shop, hfind] using h
    | some s => simpa [applyOp, update_shop, hfind, simInvariant] using h
  | opDeleteShop i =>
    cases hfind : st.shops.find? fun s => s.id = i with
    | none => simpa [applyOp, delete_shop, hfind] using h
    | some s =>
      simp only [applyOp, delete_shop, hfind, simInvariant]
      exact all_cardOk_map_ite _ resetCard (fun c _ => cardOk_resetCard c) _ h
  | opCreateSim code newId now =>
    by_cases hc : (st.simcards.any fun c => c.code = code || c.id = newId) = true
    · simpa [applyOp, create_simcard, hc] using h
    · rw [simInvariant] at h
      simp [applyOp, create_simcard, hc, simInvariant, List.all_append, h, cardOk_newCard]
  | opUpdateSim i u now => simp [Op.isUpdateSim] at hop
  | opDeleteSim i =>
    cases hfind : st.simcards.find? fun c => c.id = i with
    | none => simpa [applyOp, delete_simcard, hfind] using h
    | some c =>
      simp only [applyOp, delete_simcard, hfind, simInvariant]
      rw [simInvariant, List.all_eq_true] at h
      rw [List.all_eq_true]
      intro x hx
      exact h x (List.mem_of_mem_filter hx)
  | opAssign shopId count =>
    cases hfind : st.shops.find? fun s => s.id = shopId with
    | none => simpa [applyOp, assign_simcards_to_shop, hfind] using h
    | some shop =>
      by_cases hlt : ((selectedCards st count).length : Int) < count
      · simpa [applyOp, assign_simcards_to_shop, hfind, hlt] using h
      · simp only [applyOp, assign_simcards_to_shop, hfind, if_neg hlt]
        simp only [simInvariant]
        exact all_cardOk_map_ite _ (assignCard shopId shop.name)
          (fun c _ => cardOk_assignCard shopId shop.name c) _ h
  | opCheck i now =>
    cases hfind : st.simcards.find? fun c => c.id = i with
    | none => simpa [applyOp, check_simcard_status, hfind] using h
    | some c =>
      simp only [applyOp, check_simcard_status, hfind, simInvariant]
      refine all_cardOk_map_ite _ _ (fun c hc => ?_) _ h
      rw [cardOk_setLastChecked]
      exact hc
  | opAutoCheck ids now =>
    simp only [applyOp, auto_check_simcards, simInvariant]
    refine all_cardOk_map_ite _ _ (fun c hc => ?_) _ h
    rw [cardOk_setLastChecked]
    exact hc

/-- C5 counterexample: create an available card, then partially update only
its status to "sold"; the state reached has a card with status "sold" and a
null assignedTo, so the invariant fails on a state reachable through the
API. -/
theorem C5_counterexample_update_breaks_invariant :
    simInvariant (runOps
      [.opCreateSim "CODE1" "c1" 0,
       .opUpdateSim "c1" ⟨none, some "sold", none, none⟩ 1]) = false := by decide

/-- C5 (amended): the invariant "status=available implies assignedTo null,
status assigned or sold implies assignedTo set" holds in every state
reachable from the empty database by any sequence of API calls that does
not use the simcard partial update; the unvalidated updateSimCard can break
it. -/
theorem C5_invariant_reachable_without_updateSimCard :
    ∀ ops : List Op, (∀ op ∈ ops, op.isUpdateSim = false) →
      simInvariant (runOps ops) = true := by
  intro ops hops
  suffices hgen : ∀ (l : List Op) (st : St), (∀ op ∈ l, op.isUpdateSim = false) →
      simInvariant st = true → simInvariant (l.foldl applyOp st) = true by
    exact hgen ops initState hops rfl
  intro l
  induction l with
  | nil => exact fun st _ h => h
  | cons op l ih =>
    intro st hl h
    rw [List.foldl_cons]
    exact ih (applyOp st op) (fun o ho => hl o (List.mem_cons_of_mem _ ho))
      (simInvariant_applyOp st op (hl op (List.mem_cons_self _ _)) h)

/-- Witness for C5: a create/create/assign sequence keeps the invariant. -/
theorem C5_invariant_reachable_without_updateSimCard_witness :
    simInvariant (runOps
      [.opCreateShop ⟨"Shop One", "Owner One", "998901234567", "Addr 1", none, none, "North"⟩
        "s1" 0,
       .opCreateSim "CODE1" "c1" 1,
       .opAssign "s1" 1]) = true :=
  C5_invariant_reachable_without_updateSimCard _ (by decide)

/-- A table in which every simcard has one of the three enum statuses splits
its row count over the three per-status counts. -/
theorem length_eq_sum_status_counts :
    ∀ l : List SimCard,
      (∀ c ∈ l, c.status = "available" ∨ c.status = "assigned" ∨ c.status = "sold") →
      l.length = l.countP (fun c => c.status = "available") +
        l.countP (fun c => c.status = "assigned") +
        l.countP (fun c => c.status = "sold") := by
  intro l h
  induction l with
  | nil => simp
  | cons a l ih =>
    have ha := h a (List.mem_cons_self _ _)
    have ih' := ih fun c hc => h c (List.mem_cons_of_mem _ hc)
    rcases ha with h1 | h1 | h1 <;> simp [List.countP_cons, h1, ih'] <;> omega

/-- Sequence reaching a state whose single simcard has the out-of-enum
status "banana", written through the unvalidated partial update. -/
def bananaOps : List Op :=
  [.opCreateSim "CODE1" "c1" 0,
   .opUpdateSim "c1" ⟨none, some "banana", none, none⟩ 1]

/-- C6 counterexample: after writing the status "banana" through
updateSimCard, the statistics count 1 total simcard but 0 available, 0
assigned and 0 sold, so the claimed equation fails in a reachable state. -/
theorem C6_counterexample_unknown_status :
    ¬(get_statistics (runOps bananaOps)).totalSimCards =
      (get_statistics (runOps bananaOps)).availableSimCards +
        (get_statistics (runOps bananaOps)).assignedSimCards +
        (get_statistics (runOps bananaOps)).soldSimCards := by decide

/-- C6 (amended): in every state whose simcards all carry one of the three
enum statuses (available, assigned, sold — the only values the API itself
ever writes), the global statistics satisfy totalSimCards =
availableSimCards + assignedSimCards + soldSimCards. -/
theorem C6_total_eq_sum_of_enum_statuses :
    ∀ st : St,
      (∀ c ∈ st.simcards,
        c.status = "available" ∨ c.status = "assigned" ∨ c.status = "sold") →
      (get_statistics st).totalSimCards =
        (get_statistics st).availableSimCards + (get_statistics st).assignedSimCards +
          (get_statistics st).soldSimCards := by
  intro st h
  simp only [get_statistics]
  exact length_eq_sum_status_counts st.simcards h

/-- Witness for C6 on a two-card table. -/
theorem C6_total_eq_sum_of_enum_statuses_witness :
    (get_statistics ⟨[], [cardA, cardSold]⟩).totalSimCards =
      (get_statistics ⟨[], [cardA, cardSold]⟩).availableSimCards +
        (get_statistics ⟨[], [cardA, cardSold]⟩).assignedSimCards +
        (get_statistics ⟨[], [cardA, cardSold]⟩).soldSimCards :=
  C6_total_eq_sum_of_enum_statuses ⟨[], [cardA, cardSold]⟩ (by decide)

/-- Lookup in an association list keyed by unique shop ids retrieves the
member shop's value. -/
theorem lookup_map_pair (g : Shop → ShopSalesStat) :
    ∀ (l : List Shop), (l.map fun t => t.id).Nodup → ∀ s ∈ l,
      (l.map fun t => (t.id, g t)).lookup s.id = some (g s) := by
  intro l
  induction l with
  | nil => exact fun _ s hs => absurd hs (List.not_mem_nil s)
  | cons a l ih =>
    intro hnd s hs
    rw [List.map_cons] at hnd
    rcases List.mem_cons.1 hs with rfl | hs'
    · rw [List.map_cons, List.lookup_cons]
      simp
    · have hne : s.id ≠ a.id := by
        intro heq
        exact (List.nodup_cons.1 hnd).1
          (heq ▸ List.mem_map_of_mem (fun t => t.id) hs')
      have hbeq : (s.id == a.id) = false := beq_eq_false_iff_ne.2 hne
      rw [List.map_cons, List.lookup_cons, hbeq]
      exact ih (List.nodup_cons.1 hnd).2 s hs'

/-- C9: shopSalesStatistics has an entry for every shop, keyed by its id,
whose counts are the number of that shop's simcards with status sold, with
status assigned, and in total; a shop with no simcard assigned to it
appears with all-zero counts. -/
theorem C9_shop_sales_stats_complete :
    ∀ (st : St) (s : Shop), (st.shops.map fun t => t.id).Nodup → s ∈ st.shops →
      (get_shop_sales_stats st).lookup s.id =
        some ⟨(st.simcards.filter fun c => c.assignedTo = some s.id).countP
                (fun c => c.status = "sold"),
              (st.simcards.filter fun c => c.assignedTo = some s.id).countP
                (fun c => c.status = "assigned"),
              (st.simcards.filter fun c => c.assignedTo = some s.id).length⟩ ∧
      ((∀ c ∈ st.simcards, ¬c.assignedTo = some s.id) →
        (get_shop_sales_stats st).lookup s.id = some ⟨0, 0, 0⟩) := by
  intro st s hnd hs
  have hmain := lookup_map_pair
    (fun t => ⟨(st.simcards.filter fun c => c.assignedTo = some t.id).countP
                 (fun c => c.status = "sold"),
               (st.simcards.filter fun c => c.assignedTo = some t.id).countP
                 (fun c => c.status = "assigned"),
               (st.simcards.filter fun c => c.assignedTo = some t.id).length⟩)
    st.shops hnd s hs
  have h1 : (get_shop_sales_stats st).lookup s.id =
      some ⟨(st.simcards.filter fun c => c.assignedTo = some s.id).countP
              (fun c => c.status = "sold"),
            (st.simcards.filter fun c => c.assignedTo = some s.id).countP
              (fun c => c.status = "assigned"),
            (st.simcards.filter fun c => c.assignedTo = some s.id).length⟩ := hmain
  refine ⟨h1, fun hnone => ?_⟩
  have hfil : (st.simcards.filter fun c => c.assignedTo = some s.id) = [] := by
    rw [List.filter_eq_nil_iff]
    intro c hc
    simpa using hnone c hc
  rw [h1, hfil]
  rfl

/-- Witness for C9: shop "s1" owns the sold card, shop "s2" owns nothing. -/
theorem C9_shop_sales_stats_complete_witness :
    (get_shop_sales_stats ⟨[shopA], [cardSold]⟩).lookup "s1" =
      some ⟨((St.mk [shopA] [cardSold]).simcards.filter
               fun c => c.assignedTo = some "s1").countP (fun c => c.status = "sold"),
            ((St.mk [shopA] [cardSold]).simcards.filter
               fun c => c.assignedTo = some "s1").countP (fun c => c.status = "assigned"),
            ((St.mk [shopA] [cardSold]).simcards.filter
               fun c => c.assignedTo = some "s1").length⟩ ∧
    (get_shop_sales_stats ⟨[shopA], []⟩).lookup "s1" = some ⟨0, 0, 0⟩ :=
  ⟨((C9_shop_sales_stats_complete ⟨[shopA], [cardSold]⟩ shopA (by decide) (by simp)).1 :),
   (C9_shop_sales_stats_complete ⟨[shopA], []⟩ shopA (by decide) (by simp)).2
     (fun c hc => absurd hc (List.not_mem_nil c))⟩

/-- Every element of the date-sorted insertion comes from the inserted
element or the original list. -/
theorem mem_insertByDateDesc (s : Shop) (l : List Shop) (t : Shop)
    (h : t ∈ insertByDateDesc s l) : t = s ∨ t ∈ l := by
  induction l with
  | nil =>
    rw [insertByDateDesc] at h
    exact Or.inl (List.mem_singleton.1 h)
  | cons a l ih =>
    rw [insertByDateDesc] at h
    by_cases hle : a.addedDate ≤ s.addedDate
    · rw [if_pos hle] at h
      rcases List.mem_cons.1 h with h' | h'
      · exact Or.inl h'
      · exact Or.inr h'
    · rw [if_neg hle] at h
      rcases List.mem_cons.1 h with h' | h'
      · exact Or.inr (h' ▸ List.mem_cons_self a l)
      · rcases ih h' with h'' | h''
        · exact Or.inl h''
        · exact Or.inr (List.mem_cons_of_mem a h'')

/-- Sorted-insertion folding never invents elements. -/
theorem mem_foldr_insertByDateDesc :
    ∀ (l : List Shop) (t : Shop), t ∈ l.foldr insertByDateDesc [] → t ∈ l := by
  intro l
  induction l with
  | nil =>
    intro t h
    simp at h
  | cons a l ih =>
    intro t h
    rw [List.foldr_cons] at h
    rcases mem_insertByDateDesc a (l.foldr insertByDateDesc []) t h with h' | h'
    · exact h' ▸ List.mem_cons_self a l
    · exact List.mem_cons_of_mem a (ih t h')

/-- Every shop in the listing is a row of the shops table. -/
theorem mem_get_shops (st : St) (t : Shop) (h : t ∈ get_shops st) : t ∈ st.shops :=
  mem_foldr_insertByDateDesc st.shops t h

/-- The shop partial update never touches the denormalized list. -/
theorem applyShopUpdate_assignedSimCards (s : Shop) (u : ShopUpdate) :
    (applyShopUpdate s u).assignedSimCards = s.assignedSimCards := rfl

/-- No call writes a shop's assignedSimCards field. -/
theorem assignedSimCards_applyOp (st : St) (op : Op)
    (h : ∀ s ∈ st.shops, s.assignedSimCards = []) :
    ∀ s ∈ (applyOp st op).shops, s.assignedSimCards = [] := by
  cases op with
  | opCreateShop req newId now =>
    by_cases hc : (st.shops.any fun s => s.id = newId) = true
    · simpa [applyOp, create_shop, hc] using h
    · intro s hs
      simp only [applyOp, create_shop, hc, if_false, Bool.false_eq_true] at hs
      rcases List.mem_append.1 hs with h1 | h1
      · exact h s h1
      · rw [List.mem_singleton.1 h1]
  | opUpdateShop i u =>
    cases hfind : st.shops.find? fun s => s.id = i with
    | none => simpa [applyOp, update_shop, hfind] using h
    | some s₀ =>
      intro s hs
      simp only [applyOp, update_shop, hfind] at hs
      rw [List.mem_map] at hs
      obtain ⟨t, ht, rfl⟩ := hs
      by_cases hti : t.id = i
      · rw [if_pos hti, applyShopUpdate_assignedSimCards]
        exact h t ht
      · rw [if_neg hti]
        exact h t ht
  | opDeleteShop i =>
    cases hfind : st.shops.find? fun s => s.id = i with
    | none => simpa [applyOp, delete_shop, hfind] using h
    | some s₀ =>
      intro s hs
      simp only [applyOp, delete_shop, hfind] at hs
      exact h s (List.mem_of_mem_filter hs)
  | opCreateSim code newId now =>
    by_cases hc : (st.simcards.any fun c => c.code = code || c.id = newId) = true
    · simpa [applyOp, create_simcard, hc] using h
    · simpa [applyOp, create_simcard, hc] using h
  | opUpdateSim i u now =>
    cases hfind : st.simcards.find? fun c => c.id = i with
    | none => simpa [applyOp, update_simcard, hfind] using h
    | some c => simpa [applyOp, update_simcard, hfind] using h
  | opDeleteSim i =>
    cases hfind : st.simcards.find? fun c => c.id = i with
    | none => simpa [applyOp, delete_simcard, hfind] using h
    | some c => simpa [applyOp, delete_simcard, hfind] using h
  | opAssign shopId count =>
    cases hfind : st.shops.find? fun s => s.id = shopId with
    | none => simpa [applyOp, assign_simcards_to_shop, hfind] using h
    | some shop =>
      by_cases hlt : ((selectedCards st count).length : Int) < count
      · simpa [applyOp, assign_simcards_to_shop, hfind, hlt] using h
      · simpa [applyOp, assign_simcards_to_shop, hfind, if_neg hlt] using h
  | opCheck i now =>
    cases hfind : st.simcards.find? fun c => c.id = i with
    | none => simpa [applyOp, check_simcard_status, hfind] using h
    | some c => simpa [applyOp, check_simcard_status, hfind] using h
  | opAutoCheck ids now => simpa [applyOp, auto_check_simcards] using h

/-- C10: no operation ever writes a shop's assignedSimCards after creation,
so in every state reachable from the empty database every shop row's
denormalized simcard list is empty, and the shop listing renders an empty
list for every shop. -/
theorem C10_assignedSimCards_always_empty :
    ∀ ops : List Op,
      (∀ s ∈ (runOps ops).shops, s.assignedSimCards = []) ∧
      (∀ s ∈ get_shops (runOps ops), s.assignedSimCards = []) := by
  intro ops
  have hmain : ∀ s ∈ (runOps ops).shops, s.assignedSimCards = [] := by
    suffices hgen : ∀ (l : List Op) (st : St), (∀ s ∈ st.shops, s.assignedSimCards = []) →
        ∀ s ∈ (l.foldl applyOp st).shops, s.assignedSimCards = [] by
      refine hgen ops initState fun s hs => ?_
      simp [initState] at hs
    intro l
    induction l with
    | nil => exact fun st h => h
    | cons op l ih =>
      intro st h
      rw [List.foldl_cons]
      exact ih (applyOp st op) (assignedSimCards_applyOp st op h)
  exact ⟨hmain, fun s hs => hmain s (mem_get_shops _ s hs)⟩

/-- Witness for C10 after one shop creation. -/
theorem C10_assignedSimCards_always_empty_witness :
    shopA.assignedSimCards = ([] : List String) ∧
    shopA.assignedSimCards = ([] : List String) :=
  ⟨(C10_assignedSimCards_always_empty
      [.opCreateShop ⟨"Shop One", "Owner One", "998901234567", "Addr 1", none, none, "North"⟩
        "s1" 0]).1 shopA (by decide),
   (C10_assignedSimCards_always_empty
      [.opCreateShop ⟨"Shop One", "Owner One", "998901234567", "Addr 1", none, none, "North"⟩
        "s1" 0]).2 shopA (by decide)⟩

/-- The rows selected for assignment form a sublist of the available rows. -/
theorem selectedCards_sublist_available (st : St) (count : Int) :
    (selectedCards st count).Sublist (availableCards st) := by
  unfold selectedCards sqlLimit
  split
  · exact List.Sublist.refl _
  · exact List.take_sublist _ _

/-- The rows selected for assignment form a sublist of the whole table. -/
theorem selectedCards_sublist (st : St) (count : Int) :
    (selectedCards st count).Sublist st.simcards :=
  (selectedCards_sublist_available st count).trans (List.filter_sublist _)

/-- Every selected row is available. -/
theorem selectedCards_available (st : St) (count : Int) (c : SimCard)
    (hc : c ∈ selectedCards st count) : c.status = "available" := by
  have := (selectedCards_sublist_available st count).subset hc
  simpa [availableCards] using (List.mem_filter.1 this).2

/-- Length of the LIMIT query result for a nonnegative bound. -/
theorem selectedCards_length (st : St) (count : Int) (h0 : 0 ≤ count) :
    (selectedCards st count).length = min count.toNat (availableCards st).length := by
  unfold selectedCards sqlLimit
  rw [if_neg (by omega)]
  exact List.length_take _ _

/-- Filtering a duplicate-free list down to the members of one of its
sublists recovers that sublist. -/
theorem filter_mem_eq_of_sublist :
    ∀ {l₁ l₂ : List SimCard}, l₁.Sublist l₂ → l₂.Nodup →
      l₂.filter (fun c => c ∈ l₁) = l₁ := by
  intro l₁ l₂ h
  induction h with
  | slnil => exact fun _ => rfl
  | @cons m₁ m₂ a h ih =>
    intro hnd
    have ha : a ∉ m₁ := fun hmem => (List.nodup_cons.1 hnd).1 (h.subset hmem)
    rw [List.filter_cons, if_neg (by simpa using ha)]
    exact ih (List.nodup_cons.1 hnd).2
  | @cons₂ m₁ m₂ a h ih =>
    intro hnd
    have ha := (List.nodup_cons.1 hnd).1
    rw [List.filter_cons, if_pos (by simp)]
    have hcongr : ∀ x, x ∈ m₂ → (decide (x ∈ a :: m₁)) = (decide (x ∈ m₁)) := by
      intro x hx
      have hxa : x ≠ a := fun hh => ha (hh ▸ hx)
      simp [List.mem_cons, hxa]
    rw [List.filter_congr hcongr]
    exact congrArg (List.cons a) (ih (List.nodup_cons.1 hnd).2)

/-- In a duplicate-free table, the number of rows belonging to a sublist is
that sublist's length. -/
theorem countP_mem_eq_length_of_sublist {l₁ l₂ : List SimCard} (h : l₁.Sublist l₂)
    (hnd : l₂.Nodup) : l₂.countP (fun c => c ∈ l₁) = l₁.length := by
  rw [List.countP_eq_length_filter, filter_mem_eq_of_sublist h hnd]

/-- With unique simcard ids, a table row's id occurs among the selected ids
exactly when the row itself was selected. -/
theorem id_mem_iff_mem_selected (st : St) (count : Int)
    (hnd : (st.simcards.map fun c => c.id).Nodup) (c : SimCard)
    (hc : c ∈ st.simcards) :
    ((selectedCards st count).map fun d => d.id).contains c.id = true ↔
      c ∈ selectedCards st count := by
  constructor
  · intro hcont
    rw [List.contains_iff_exists_mem_beq] at hcont
    obtain ⟨x, hx, hbeq⟩ := hcont
    rw [List.mem_map] at hx
    obtain ⟨d, hd, rfl⟩ := hx
    have hdd : d ∈ st.simcards := (selectedCards_sublist st count).subset hd
    have hcd : c = d := List.inj_on_of_nodup_map hnd hc hdd (eq_of_beq hbeq)
    exact hcd ▸ hd
  · intro hmem
    rw [List.contains_iff_exists_mem_beq]
    exact ⟨c.id, List.mem_map_of_mem _ hmem, by simp⟩

/-- C1 counterexample: with one available card and the negative request
count -1 (a negative SQLite LIMIT means no bound), the call succeeds and
assigns 1 card: it neither assigns exactly n = -1 cards nor fails with
BadRequest — the available count 1 is not below -1 — so the claimed
dichotomy fails for this input. -/
theorem C1_counterexample_negative_count :
    assign_simcards_to_shop ⟨[shopA], [cardA]⟩ "s1" (-1) =
      .ok ([⟨"c1", "CODE1", "assigned", "s1", "Shop One"⟩],
        ⟨[shopA], [assignCard "s1" "Shop One" cardA]⟩) ∧
    ((1 : Int) ≠ -1) ∧
    ¬(((availableCards ⟨[shopA], [cardA]⟩).length : Int) < -1) :=
  ⟨rfl, by decide, by decide⟩

/-- C1 (amended): for a request count n ≥ 0 against an existing shop,
assignSimCards either fails with BadRequest and changes nothing when fewer
than n simcards are available, or succeeds, assigning exactly n previously
available cards — each becoming status=assigned, assignedTo=shopId,
assignedShopName equal to the shop's current name — while every other
simcard is unchanged.  For n < 0 the SQLite LIMIT keeps every available
row and the code assigns them all (see the counterexample). -/
theorem C1_assign_all_or_nothing :
    ∀ (st : St) (shopId : String) (shop : Shop) (count : Int),
      st.shops.find? (fun s => s.id = shopId) = some shop →
      (st.simcards.map fun c => c.id).Nodup →
      0 ≤ count →
      ((((availableCards st).length : Int) < count →
        assign_simcards_to_shop st shopId count =
          .error ⟨400, "Only " ++ toString (availableCards st).length ++
            " simcards available"⟩ ∧
        applyOp st (.opAssign shopId count) = st) ∧
       (count ≤ ((availableCards st).length : Int) →
        ∃ resp st', assign_simcards_to_shop st shopId count = .ok (resp, st') ∧
          resp.length = count.toNat ∧
          (selectedCards st count).length = count.toNat ∧
          (∀ c ∈ selectedCards st count, c ∈ st.simcards ∧ c.status = "available") ∧
          st.simcards.countP (fun c => c ∈ selectedCards st count) = count.toNat ∧
          st'.shops = st.shops ∧
          st'.simcards.length = st.simcards.length ∧
          (∀ j (h : j < st.simcards.length) (h' : j < st'.simcards.length),
            st'.simcards.get ⟨j, h'⟩ =
              if st.simcards.get ⟨j, h⟩ ∈ selectedCards st count
              then assignCard shopId shop.name (st.simcards.get ⟨j, h⟩)
              else st.simcards.get ⟨j, h⟩))) := by
  intro st shopId shop count hfind hnd h0
  constructor
  · intro hlt
    have hsl : (selectedCards st count).length = (availableCards st).length := by
      rw [selectedCards_length st count h0]
      have : (availableCards st).length < count.toNat := by omega
      omega
    have hcond : ((selectedCards st count).length : Int) < count := by
      rw [hsl]
      exact hlt
    constructor
    · simp only [assign_simcards_to_shop, hfind]
      rw [if_pos hcond, hsl]
    · simp only [applyOp, assign_simcards_to_shop, hfind]
      rw [if_pos hcond]
  · intro hle
    have hsl : (selectedCards st count).length = count.toNat := by
      rw [selectedCards_length st count h0]
      have : count.toNat ≤ (availableCards st).length := Int.toNat_le.2 hle
      omega
    have hcond : ¬((selectedCards st count).length : Int) < count := by
      rw [hsl, Int.toNat_of_nonneg h0]
      omega
    refine ⟨(selectedCards st count).map fun c =>
        AssignedCard.mk c.id c.code "assigned" shopId shop.name,
      { st with simcards := st.simcards.map fun c =>
          if ((selectedCards st count).map fun d => d.id).contains c.id
          then assignCard shopId shop.name c else c },
      ?_, ?_, hsl, ?_, ?_, rfl, by simp, ?_⟩
    · simp only [assign_simcards_to_shop, hfind]
      rw [if_neg hcond]
    · simp [hsl]
    · intro c hc
      exact ⟨(selectedCards_sublist st count).subset hc,
        selectedCards_available st count c hc⟩
    · rw [countP_mem_eq_length_of_sublist (selectedCards_sublist st count)
        (List.Nodup.of_map _ hnd)]
      exact hsl
    · intro j h h'
      have hmap : (st.simcards.map fun c =>
          if ((selectedCards st count).map fun d => d.id).contains c.id
          then assignCard shopId shop.name c else c).get ⟨j, h'⟩ =
          (if ((selectedCards st count).map fun d => d.id).contains
              (st.simcards.get ⟨j, h⟩).id
           then assignCard shopId shop.name (st.simcards.get ⟨j, h⟩)
           else st.simcards.get ⟨j, h⟩) := by
        simp [List.get_eq_getElem, List.getElem_map]
      rw [hmap]
      have hiff := id_mem_iff_mem_selected st count hnd (st.simcards.get ⟨j, h⟩)
        (List.get_mem st.simcards j h)
      by_cases hm : st.simcards.get ⟨j, h⟩ ∈ selectedCards st count
      · rw [if_pos (hiff.2 hm), if_pos hm]
      · rw [if_neg fun hcontra => hm (hiff.1 hcontra), if_neg hm]

/-- Witness for C1: shop "s1" and one available card, request count 1. -/
theorem C1_assign_all_or_nothing_witness :
    ∃ resp st', assign_simcards_to_shop ⟨[shopA], [cardA]⟩ "s1" 1 = .ok (resp, st') ∧
      resp.length = (1 : Int).toNat ∧
      (selectedCards ⟨[shopA], [cardA]⟩ 1).length = (1 : Int).toNat ∧
      (∀ c ∈ selectedCards ⟨[shopA], [cardA]⟩ 1,
        c ∈ (St.mk [shopA] [cardA]).simcards ∧ c.status = "available") ∧
      (St.mk [shopA] [cardA]).simcards.countP
        (fun c => c ∈ selectedCards ⟨[shopA], [cardA]⟩ 1) = (1 : Int).toNat ∧
      st'.shops = (St.mk [shopA] [cardA]).shops ∧
      st'.simcards.length = (St.mk [shopA] [cardA]).simcards.length ∧
      (∀ j (h : j < (St.mk [shopA] [cardA]).simcards.length)
          (h' : j < st'.simcards.length),
        st'.simcards.get ⟨j, h'⟩ =
          if (St.mk [shopA] [cardA]).simcards.get ⟨j, h⟩ ∈
              selectedCards ⟨[shopA], [cardA]⟩ 1
          then assignCard "s1" shopA.name ((St.mk [shopA] [cardA]).simcards.get ⟨j, h⟩)
          else (St.mk [shopA] [cardA]).simcards.get ⟨j, h⟩) :=
  (C1_assign_all_or_nothing ⟨[shopA], [cardA]⟩ "s1" shopA 1
    (by decide) (by decide) (by decide)).2 (by decide)
